import Mathlib

/-!
Verification development for the inspectrixV4 authentication core.

The development shallowly embeds the two components the specification
describes:

* the Auth Service (class SupabaseAuthService, services/auth/SupabaseAuthService.ts,
  concatenated into src/components/auth/LoginScreen.tsx), and
* the Session Coordinator (AuthProvider in src/components/auth/AuthContext.tsx),

together with the data model of types/auth.ts (src/unnamed/part_002 and
src/unnamed/part_003) and the login form validation of LoginScreen.tsx.

Remote calls (the supabase client) are modelled as explicit outcome
parameters: a call either resolves with a payload, resolves with an error
object, or rejects (throws).  Each TypeScript method becomes a total Lean
function of its call outcomes, translated branch by branch from the source.
JavaScript string operations are modelled for the ASCII range: trimStr for
String.prototype.trim, lowerStr for toLowerCase, orDefault for the
falsy-string idiom (x || d).
-/

/-- Outcome of one awaited supabase call: resolved payload, resolved error
object (name and message), or a rejected promise (thrown) with a message. -/
inductive SupaCall (α : Type) where
  | ok (a : α)
  | err (name msg : String)
  | thrown (msg : String)
deriving DecidableEq

/-- JavaScript idiom (x || d) for strings: the empty string is falsy. -/
def orDefault (m d : String) : String := if m = "" then d else m

/-- JavaScript toLowerCase restricted to ASCII. -/
def lowerStr (s : String) : String := String.mk (s.data.map Char.toLower)

/-- JavaScript String.prototype.trim restricted to ASCII whitespace. -/
def trimStr (s : String) : String :=
  String.mk (((s.data.dropWhile Char.isWhitespace).reverse.dropWhile
    Char.isWhitespace).reverse)

/-- JavaScript idiom (x || null) on an optional string field. -/
def orNull (o : Option String) : Option String :=
  match o with
  | some s => if s = "" then none else some s
  | none => none

/-- Supabase auth user as consumed by this code base: id and email. -/
structure SupaUser where
  id : String
  email : String
deriving DecidableEq

/-- Supabase session object: user, tokens, optional expiry (epoch seconds).
The source reads session.access_token, session.refresh_token,
session.expires_at and session.user. -/
structure SupaSession where
  user : SupaUser
  access_token : String
  refresh_token : String
  expires_at : Option Nat
deriving DecidableEq

/-- Payload of supabase.auth.signInWithPassword / signUp: data.user and
data.session, each possibly null. -/
structure AuthData where
  user : Option SupaUser
  session : Option SupaSession
deriving DecidableEq

/-- Row of the user_profiles table as selected by getUserProfile, with the
joined contractors name (contractors may be null). Timestamps are epoch
numbers. -/
structure ProfileRow where
  id : String
  email : String
  first_name : String
  last_name : String
  role : String
  contractor_id : String
  contractors : Option String
  is_active : Bool
  must_change_password : Bool
  last_login : Option Nat
  created_at : Nat
deriving DecidableEq

/-- User record of types/auth.ts (src/unnamed/part_002). -/
structure User where
  id : String
  email : String
  firstName : String
  lastName : String
  role : String
  contractorId : String
  contractorName : String
  isActive : Bool
  mustChangePassword : Bool
  lastLogin : Option Nat
  createdAt : Nat
deriving DecidableEq

/-- AuthSession of types/auth.ts: user, accessToken, optional refreshToken
and optional expiry (epoch milliseconds). -/
structure AuthSession where
  user : User
  accessToken : String
  refreshToken : Option String
  expiresAt : Option Nat
deriving DecidableEq

/-- AuthResult of types/auth.ts: success flag, optional payload, optional
error message and optional machine error code. -/
structure AuthResult (α : Type) where
  success : Bool
  data : Option α
  error : Option String
  errorCode : Option String
deriving DecidableEq

/-- LoginCredentials of types/auth.ts (service flavour). -/
structure LoginCredentials where
  email : String
  password : String
deriving DecidableEq

/-- RegisterData of types/auth.ts. -/
structure RegisterData where
  email : String
  password : String
  firstName : String
  lastName : String
  contractorId : Option String
  role : Option String
deriving DecidableEq

/-- Row inserted into user_profiles by SupabaseAuthService.register. -/
structure InsertRow where
  id : String
  contractor_id : String
  email : String
  first_name : String
  last_name : String
  role : String
  must_change_password : Bool
deriving DecidableEq

namespace SupabaseAuthService

/-- User built by getUserProfile from a user_profiles row; contractorName
applies data.contractors?.name with the Unknown fallback. -/
def userOfRow (r : ProfileRow) : User :=
  { id := r.id
    email := r.email
    firstName := r.first_name
    lastName := r.last_name
    role := r.role
    contractorId := r.contractor_id
    contractorName :=
      match r.contractors with
      | some n => orDefault n "Unknown"
      | none => "Unknown"
    isActive := r.is_active
    mustChangePassword := r.must_change_password
    lastLogin := r.last_login
    createdAt := r.created_at }

/-- Private helper getUserProfile: selects the user_profiles row (outcome o)
and maps it to a User; a query error or a throw is caught and becomes a
failure result. -/
def getUserProfile (o : SupaCall ProfileRow) : AuthResult User :=
  match o with
  | .thrown m => ⟨false, none, some (orDefault m "Failed to get user profile"), none⟩
  | .err _ msg => ⟨false, none, some (orDefault msg "User profile not found"), none⟩
  | .ok r => ⟨true, some (userOfRow r), none, none⟩

/-- login: trims the submitted email, calls signInWithPassword, requires
both user and session in the payload, loads the profile and builds the
AuthSession. The source asserts expires_at non-null and multiplies by 1000;
the Option map mirrors that arithmetic. -/
def login (c : LoginCredentials)
    (signInCall : String → String → SupaCall AuthData)
    (profileQ : String → SupaCall ProfileRow) : AuthResult AuthSession :=
  match signInCall (trimStr c.email) c.password with
  | .thrown m => ⟨false, none, some (orDefault m "Login failed"), none⟩
  | .err name msg => ⟨false, none, some msg, some name⟩
  | .ok ad =>
      match ad.user, ad.session with
      | some u, some ss =>
          let ur := getUserProfile (profileQ u.id)
          match ur.success, ur.data with
          | true, some usr =>
              ⟨true, some
                { user := usr
                  accessToken := ss.access_token
                  refreshToken := some ss.refresh_token
                  expiresAt := ss.expires_at.map (· * 1000) }, none, none⟩
          | _, _ => ⟨false, none, some "Failed to load user profile", none⟩
      | _, _ => ⟨false, none, some "Authentication failed", none⟩

/-- getDefaultContractorId: the contractors query either rejects (propagating
to the register catch) or yields data whose id is taken with the empty-string
fallback (data?.id || ""). -/
def getDefaultContractorId (o : Except String (Option String)) :
    Except String String :=
  o.map (fun d => d.getD "")

/-- Resolution of data.contractorId || (await this.getDefaultContractorId()):
a missing or empty contractorId falls back to the default query. -/
def resolveContractorId (cid : Option String)
    (dflt : Except String (Option String)) : Except String String :=
  match cid with
  | some c => if c = "" then getDefaultContractorId dflt else .ok c
  | none => getDefaultContractorId dflt

/-- Role inserted at registration: data.role || "inspector". -/
def roleOrInspector (o : Option String) : String :=
  match o with
  | some r => orDefault r "inspector"
  | none => "inspector"

/-- The user_profiles row register inserts in step 2. -/
def registerInsertRow (d : RegisterData) (u : SupaUser) (cid : String) : InsertRow :=
  { id := u.id
    contractor_id := cid
    email := d.email
    first_name := d.firstName
    last_name := d.lastName
    role := roleOrInspector d.role
    must_change_password := false }

/-- register: three steps translated from the source. Step 1 signUp (only
authData.user is required; authData.session may be null). Step 2 insert the
user_profiles row; an insert error becomes the prefixed Profile creation
failed message. Step 3 reload the profile and build the AuthSession, whose
accessToken applies authData.session?.access_token || "" and which carries
no expiresAt. Any throw is caught and defaulted. -/
def register (d : RegisterData)
    (signUpCall : String → String → SupaCall AuthData)
    (dfltContractor : Except String (Option String))
    (profileInsert : InsertRow → SupaCall Unit)
    (profileQ : String → SupaCall ProfileRow) : AuthResult AuthSession :=
  match signUpCall d.email d.password with
  | .thrown m => ⟨false, none, some (orDefault m "Registration failed"), none⟩
  | .err name msg => ⟨false, none, some msg, some name⟩
  | .ok ad =>
      match ad.user with
      | none => ⟨false, none, some "Failed to create user account", none⟩
      | some u =>
          match resolveContractorId d.contractorId dfltContractor with
          | .error m => ⟨false, none, some (orDefault m "Registration failed"), none⟩
          | .ok cid =>
              match profileInsert (registerInsertRow d u cid) with
              | .thrown m =>
                  ⟨false, none, some (orDefault m "Registration failed"), none⟩
              | .err _ msg =>
                  ⟨false, none, some ("Profile creation failed: " ++ msg), none⟩
              | .ok _ =>
                  let ur := getUserProfile (profileQ u.id)
                  match ur.success, ur.data with
                  | true, some usr =>
                      ⟨true, some
                        { user := usr
                          accessToken := (ad.session.map (·.access_token)).getD ""
                          refreshToken := ad.session.map (·.refresh_token)
                          expiresAt := none }, none, none⟩
                  | _, _ =>
                      ⟨false, none,
                        some "Failed to load user profile after registration", none⟩

/-- logout: forwards the supabase signOut outcome; a successful remote
sign-out yields a bare success with no payload (AuthResult of void). -/
def logout (o : SupaCall Unit) : AuthResult Unit :=
  match o with
  | .thrown m => ⟨false, none, some (orDefault m "Logout failed"), none⟩
  | .err _ msg => ⟨false, none, some msg, none⟩
  | .ok _ => ⟨true, none, none, none⟩

/-- getCurrentSession: reads the current supabase session (possibly null),
loads the profile of its user and builds the AuthSession. -/
def getCurrentSession (sessO : SupaCall (Option SupaSession))
    (profileQ : String → SupaCall ProfileRow) : AuthResult AuthSession :=
  match sessO with
  | .thrown m => ⟨false, none, some (orDefault m "Failed to get session"), none⟩
  | .err _ msg => ⟨false, none, some msg, none⟩
  | .ok none => ⟨false, none, some "No active session", none⟩
  | .ok (some ss) =>
      let ur := getUserProfile (profileQ ss.user.id)
      match ur.success, ur.data with
      | true, some usr =>
          ⟨true, some
            { user := usr
              accessToken := ss.access_token
              refreshToken := some ss.refresh_token
              expiresAt := ss.expires_at.map (· * 1000) }, none, none⟩
      | _, _ => ⟨false, none, some "Failed to load user profile", none⟩

/-- refreshSession: on a refresh error or a null refreshed session it fails
with error?.message || the default; otherwise it delegates to
getCurrentSession. -/
def refreshSession (refO : SupaCall (Option SupaSession))
    (sessO : SupaCall (Option SupaSession))
    (profileQ : String → SupaCall ProfileRow) : AuthResult AuthSession :=
  match refO with
  | .thrown m => ⟨false, none, some (orDefault m "Session refresh failed"), none⟩
  | .err _ msg => ⟨false, none, some (orDefault msg "Failed to refresh session"), none⟩
  | .ok none => ⟨false, none, some "Failed to refresh session", none⟩
  | .ok (some _) => getCurrentSession sessO profileQ

/-- changePassword: forwards the updateUser outcome, void payload. -/
def changePassword (o : SupaCall Unit) : AuthResult Unit :=
  match o with
  | .thrown m => ⟨false, none, some (orDefault m "Password change failed"), none⟩
  | .err _ msg => ⟨false, none, some msg, none⟩
  | .ok _ => ⟨true, none, none, none⟩

/-- resetPassword: forwards the resetPasswordForEmail outcome, void payload. -/
def resetPassword (o : SupaCall Unit) : AuthResult Unit :=
  match o with
  | .thrown m => ⟨false, none, some (orDefault m "Password reset failed"), none⟩
  | .err _ msg => ⟨false, none, some msg, none⟩
  | .ok _ => ⟨true, none, none, none⟩

/-- getCurrentUser: reads the supabase user (possibly null) and delegates
to getUserProfile. -/
def getCurrentUser (userO : SupaCall (Option SupaUser))
    (profileQ : String → SupaCall ProfileRow) : AuthResult User :=
  match userO with
  | .thrown m => ⟨false, none, some (orDefault m "Failed to get current user"), none⟩
  | .err _ msg => ⟨false, none, some (orDefault msg "No authenticated user"), none⟩
  | .ok none => ⟨false, none, some "No authenticated user", none⟩
  | .ok (some u) => getUserProfile (profileQ u.id)

/-- updateProfile: requires an authenticated current user, performs the
user_profiles update (the built row also carries an updated_at wall-clock
timestamp, outside this pure model) and reloads the profile. -/
def updateProfile (userO : SupaCall (Option SupaUser))
    (profileQ : String → SupaCall ProfileRow)
    (updO : SupaCall Unit) : AuthResult User :=
  let cu := getCurrentUser userO profileQ
  match cu.success, cu.data with
  | true, some u =>
      match updO with
      | .thrown m => ⟨false, none, some (orDefault m "Profile update failed"), none⟩
      | .err _ msg => ⟨false, none, some msg, none⟩
      | .ok _ => getUserProfile (profileQ u.id)
  | _, _ => ⟨false, none, some "No authenticated user", none⟩

/-- Value handed to the onAuthStateChange callback for one underlying
session transition: null sessions and profile-load failures map to null,
otherwise the built AuthSession (expiresAt guarded, line 486). -/
def onAuthChangePayload (session : Option SupaSession)
    (profileQ : String → SupaCall ProfileRow) : Option AuthSession :=
  match session with
  | none => none
  | some ss =>
      let ur := getUserProfile (profileQ ss.user.id)
      match ur.success, ur.data with
      | true, some usr =>
          some
            { user := usr
              accessToken := ss.access_token
              refreshToken := some ss.refresh_token
              expiresAt := ss.expires_at.map (· * 1000) }
      | _, _ => none

/-- isAuthenticated: success of getCurrentSession. -/
def isAuthenticated (sessO : SupaCall (Option SupaSession))
    (profileQ : String → SupaCall ProfileRow) : Bool :=
  (getCurrentSession sessO profileQ).success

/-- getAuthHeaders: bearer header when a session is available, else empty. -/
def getAuthHeaders (sessO : SupaCall (Option SupaSession))
    (profileQ : String → SupaCall ProfileRow) : List (String × String) :=
  let s := getCurrentSession sessO profileQ
  match s.success, s.data with
  | true, some d => [("Authorization", "Bearer " ++ d.accessToken)]
  | _, _ => []

end SupabaseAuthService

namespace AuthContext

/-- UserProfile of types/auth.ts (src/unnamed/part_003): the profiles table
row cached by the Coordinator. -/
structure CtxUserProfile where
  id : String
  email : String
  full_name : Option String
  company : Option String
  role : Option String
  created_at : String
  updated_at : String
deriving DecidableEq

/-- AuthError of types/auth.ts (src/unnamed/part_003). -/
structure CtxAuthError where
  message : String
  code : Option String
deriving DecidableEq

/-- AuthState of types/auth.ts held by the AuthProvider. -/
structure CoordState where
  user : Option SupaUser
  profile : Option CtxUserProfile
  loading : Bool
  initialized : Bool
deriving DecidableEq

/-- LoginCredentials consumed by the Coordinator (src/unnamed/part_003). -/
structure CtxLoginCredentials where
  email : String
  password : String
deriving DecidableEq

/-- RegisterCredentials consumed by the Coordinator (src/unnamed/part_003). -/
structure CtxRegisterCredentials where
  email : String
  password : String
  fullName : String
  company : Option String
  role : Option String
deriving DecidableEq

/-- Row inserted into profiles by createUserProfile. -/
structure CtxInsertRow where
  id : String
  email : String
  full_name : Option String
  company : Option String
  role : Option String
deriving DecidableEq

/-- Coordinator getUserProfile: a query error or throw is logged and
becomes null, otherwise the row is returned. -/
def getUserProfile (o : SupaCall CtxUserProfile) : Option CtxUserProfile :=
  match o with
  | .ok p => some p
  | .err _ _ => none
  | .thrown _ => none

/-- Row built by createUserProfile from the auth user and the additional
registration data; the || null idiom maps empty strings to null. -/
def createUserProfileRow (u : SupaUser) (c : CtxRegisterCredentials) :
    CtxInsertRow :=
  { id := u.id
    email := u.email
    full_name := orNull (some c.fullName)
    company := orNull c.company
    role := orNull c.role }

/-- handleAuthStateChange: a present session installs its user and the
fetched profile, a null session clears both; loading becomes false and
initialized true in either case. -/
def handleAuthStateChange (session : Option SupaSession)
    (profileO : SupaCall CtxUserProfile) : CoordState :=
  match session with
  | some ss => ⟨some ss.user, getUserProfile profileO, false, true⟩
  | none => ⟨none, none, false, true⟩

/-- Email and password the Coordinator signIn forwards to
signInWithPassword: the email is trimmed and lowercased (lines 140 to 141). -/
def signInRequest (c : CtxLoginCredentials) : String × String :=
  (lowerStr (trimStr c.email), c.password)

/-- Coordinator signIn: sets loading true, then awaits signInWithPassword
with the request of signInRequest (outcome o). An error outcome resets
loading and surfaces the message (code duplicates the message, line 146); a
throw resets loading with the generic message; a success returns with no
further state write inside signIn (the session is adopted later by
handleAuthStateChange). -/
def signIn (s : CoordState) (o : SupaCall Unit) :
    CoordState × Option CtxAuthError :=
  match o with
  | .ok _ => ({ s with loading := true }, none)
  | .err _ msg => ({ s with loading := false }, some ⟨msg, some msg⟩)
  | .thrown _ =>
      ({ s with loading := false },
        some ⟨"An unexpected error occurred during sign in", none⟩)

/-- Email and password the Coordinator signUp forwards to supabase signUp
(lines 165 to 166): the same trim and lowercase normalization. -/
def signUpRequest (c : CtxRegisterCredentials) : String × String :=
  (lowerStr (trimStr c.email), c.password)

/-- Coordinator signUp: sets loading true, awaits supabase signUp
(outcome o yields the created user, possibly null); when a user is present,
createUserProfile inserts the profiles row (outcome insertO) and rethrows
its error, landing in the outer catch with the generic message. Every path
ends with loading false. The user field of the state is never written. -/
def signUp (s : CoordState) (c : CtxRegisterCredentials)
    (o : SupaCall (Option SupaUser)) (insertO : CtxInsertRow → SupaCall Unit) :
    CoordState × Option CtxAuthError :=
  match o with
  | .thrown _ =>
      ({ s with loading := false },
        some ⟨"An unexpected error occurred during registration", none⟩)
  | .err _ msg => ({ s with loading := false }, some ⟨msg, some msg⟩)
  | .ok none => ({ s with loading := false }, none)
  | .ok (some u) =>
      match insertO (createUserProfileRow u c) with
      | .ok _ => ({ s with loading := false }, none)
      | .err _ _ =>
          ({ s with loading := false },
            some ⟨"An unexpected error occurred during registration", none⟩)
      | .thrown _ =>
          ({ s with loading := false },
            some ⟨"An unexpected error occurred during registration", none⟩)

/-- Coordinator signOut (lines 194 to 202): sets loading true and awaits
supabase signOut. A resolved outcome, successful or carrying an error
object, is not inspected: the state keeps loading true and the user and
profile fields untouched (clearing is left to handleAuthStateChange, which
only runs when the backend emits a signed-out event). Only a thrown
exception reaches the catch, which resets loading but also leaves user and
profile untouched. -/
def signOut (s : CoordState) (o : SupaCall Unit) : CoordState :=
  match o with
  | .ok _ => { s with loading := true }
  | .err _ _ => { s with loading := true }
  | .thrown _ => { s with loading := false }

/-- Coordinator updateProfile: requires a logged-in user, performs the
profiles update (outcome updO; the built row also carries an updated_at
wall-clock timestamp, outside this pure model) and refreshes the cached
profile. The loading flag is never touched. -/
def updateProfile (s : CoordState) (updO : SupaCall Unit)
    (profileO : SupaCall CtxUserProfile) : CoordState × Option CtxAuthError :=
  match s.user with
  | none => (s, some ⟨"No user logged in", none⟩)
  | some _ =>
      match updO with
      | .err _ msg => (s, some ⟨msg, none⟩)
      | .thrown _ =>
          (s, some ⟨"An unexpected error occurred while updating profile", none⟩)
      | .ok _ => ({ s with profile := getUserProfile profileO }, none)

end AuthContext

namespace LoginScreenUI

/-- JavaScript regex class of non-whitespace characters, ASCII range. -/
def jsNonspace (c : Char) : Bool := !c.isWhitespace

/-- Search semantics of the test of the email regex of LoginScreen
validateForm: the string contains a non-space character, an at sign, a
non-empty non-space run, a dot and a non-space character, contiguously. -/
def emailRegexTest (s : String) : Bool :=
  let cs := s.data
  let n := cs.length
  (List.range n).any fun i =>
    (List.range n).any fun j =>
      decide (1 ≤ i) && decide (i + 1 < j) && decide (j + 1 < n) &&
      (cs.getD i ' ' == '@') && (cs.getD j ' ' == '.') &&
      jsNonspace (cs.getD (i - 1) ' ') && jsNonspace (cs.getD (j + 1) ' ') &&
      ((List.range (j - i - 1)).all fun k => jsNonspace (cs.getD (i + 1 + k) ' '))

/-- Email error produced by validateForm of LoginScreen. -/
def loginEmailError (email : String) : Option String :=
  if trimStr email = "" then some "Email is required"
  else if !emailRegexTest email then some "Email is invalid"
  else none

/-- Password error produced by validateForm of LoginScreen. -/
def loginPasswordError (password : String) : Option String :=
  if password = "" then some "Password is required" else none

/-- validateForm of LoginScreen: true exactly when no error was recorded. -/
def validateForm (email password : String) : Bool :=
  (loginEmailError email).isNone && (loginPasswordError password).isNone

/-- handleLogin of LoginScreen: when validation fails the service is never
invoked (none); otherwise it is called with the trimmed email and the
password. -/
def handleLoginCall (email password : String) : Option (String × String) :=
  if validateForm email password then some (trimStr email, password) else none

end LoginScreenUI

namespace BackendModel

/-- One identity record of the hosted backend: id, email, password. -/
structure Account where
  id : String
  email : String
  password : String
deriving DecidableEq

/-- Abstract state of the hosted backend visible to this client: identity
records, the user_profiles table, and the currently active session. -/
structure Backend where
  accounts : List Account
  profiles : List ProfileRow
  active : Option SupaSession
deriving DecidableEq

/-- Session minted by the backend for an account; tokens are derived from
the account id, expiry far in the future. -/
def mkSession (a : Account) : SupaSession :=
  { user := ⟨a.id, a.email⟩
    access_token := "access-" ++ a.id
    refresh_token := "refresh-" ++ a.id
    expires_at := some 4102444800 }

/-- Password check of the backend: the email is matched case-insensitively
(hosted identity providers treat emails as case-insensitive), the password
exactly. -/
def findAccount (b : Backend) (e p : String) : Option Account :=
  b.accounts.find? fun a => lowerStr a.email == lowerStr e && a.password == p

/-- Outcome of signInWithPassword against the backend state. -/
def signInOutcome (b : Backend) (e p : String) : SupaCall AuthData :=
  match findAccount b e p with
  | some a => .ok ⟨some ⟨a.id, a.email⟩, some (mkSession a)⟩
  | none => .err "AuthApiError" "Invalid login credentials"

/-- Outcome of the user_profiles single-row query against the backend
state: the row with the requested id, or the no-rows error of single. -/
def profileQuery (b : Backend) (uid : String) : SupaCall ProfileRow :=
  match b.profiles.find? (fun r => r.id == uid) with
  | some r => .ok r
  | none => .err "PGRST116" "JSON object requested, multiple (or no) rows returned"

/-- Token rotation performed by a session refresh: tokens change, the user
does not. -/
def rotate (s : SupaSession) : SupaSession :=
  { s with access_token := s.access_token ++ "-r" }

/-- Outcome of supabase refreshSession against the backend state. -/
def refreshOutcome (b : Backend) : SupaCall (Option SupaSession) :=
  match b.active with
  | some s => .ok (some (rotate s))
  | none => .err "AuthSessionMissingError" "Auth session missing"

/-- Backend state after a sign-in attempt: a successful match installs the
minted session. -/
def afterSignIn (b : Backend) (e p : String) : Backend :=
  match findAccount b e p with
  | some a => { b with active := some (mkSession a) }
  | none => b

/-- Backend state after a refresh: the active session is rotated. -/
def afterRefresh (b : Backend) : Backend :=
  { b with active := b.active.map rotate }

/-- SupabaseAuthService.login run against the backend state: result and
post state. -/
def loginB (b : Backend) (c : LoginCredentials) :
    AuthResult AuthSession × Backend :=
  (SupabaseAuthService.login c (signInOutcome b) (profileQuery b),
    afterSignIn b (trimStr c.email) c.password)

/-- SupabaseAuthService.getCurrentSession run against the backend state. -/
def currentSessionB (b : Backend) : AuthResult AuthSession :=
  SupabaseAuthService.getCurrentSession (.ok b.active) (profileQuery b)

/-- SupabaseAuthService.refreshSession run against the backend state: the
refresh call sees b, the delegated getCurrentSession sees the rotated
state. -/
def refreshB (b : Backend) : AuthResult AuthSession :=
  SupabaseAuthService.refreshSession (refreshOutcome b)
    (.ok (afterRefresh b).active) (profileQuery (afterRefresh b))

end BackendModel

/-- Concrete user_profiles row used by witnesses. -/
def sampleRow : ProfileRow :=
  ⟨"u1", "a@b.com", "Ann", "Best", "inspector", "c1",
    some "Jims Crane Inspection", true, false, none, 0⟩

/-- Concrete supabase user used by witnesses. -/
def sampleSupaUser : SupaUser := ⟨"u1", "a@b.com"⟩

/-- Concrete supabase session used by witnesses. -/
def sampleSession : SupaSession := ⟨sampleSupaUser, "tok", "ref", some 4102444800⟩

/-- Concrete backend state, no active session. -/
def sampleBackend : BackendModel.Backend :=
  ⟨[⟨"u1", "a@b.com", "pw"⟩], [sampleRow], none⟩

/-- Concrete backend state with an active session. -/
def sampleBackendActive : BackendModel.Backend :=
  ⟨[⟨"u1", "a@b.com", "pw"⟩], [sampleRow], some sampleSession⟩

/-- Concrete authenticated Coordinator state. -/
def sampleCoordAuthed : AuthContext.CoordState :=
  ⟨some sampleSupaUser, none, false, true⟩

namespace SupabaseAuthService

theorem getUserProfile_success_eq (o : SupaCall ProfileRow) :
    (getUserProfile o).success = (getUserProfile o).data.isSome := by
  cases o <;> rfl

theorem login_success_eq (c : LoginCredentials)
    (si : String → String → SupaCall AuthData)
    (q : String → SupaCall ProfileRow) :
    (login c si q).success = (login c si q).data.isSome := by
  unfold login
  cases si (trimStr c.email) c.password with
  | thrown m => rfl
  | err n m => rfl
  | ok ad =>
      obtain ⟨ou, os⟩ := ad
      cases ou <;> cases os <;> try rfl
      rename_i u ss
      dsimp only
      cases hg : getUserProfile (q u.id) with
      | mk gs gd ge gc => cases gs <;> cases gd <;> rfl

theorem register_success_eq (d : RegisterData)
    (sc : String → String → SupaCall AuthData)
    (dc : Except String (Option String))
    (ins : InsertRow → SupaCall Unit)
    (q : String → SupaCall ProfileRow) :
    (register d sc dc ins q).success = (register d sc dc ins q).data.isSome := by
  unfold register
  cases sc d.email d.password with
  | thrown m => rfl
  | err n m => rfl
  | ok ad =>
      obtain ⟨ou, os⟩ := ad
      cases ou with
      | none => rfl
      | some u =>
          dsimp only
          cases resolveContractorId d.contractorId dc with
          | error m => rfl
          | ok cid =>
              dsimp only
              cases ins (registerInsertRow d u cid) with
              | thrown m => rfl
              | err n m => rfl
              | ok _ =>
                  dsimp only
                  cases hg : getUserProfile (q u.id) with
                  | mk gs gd ge gc => cases gs <;> cases gd <;> rfl

theorem getCurrentSession_success_eq (sessO : SupaCall (Option SupaSession))
    (q : String → SupaCall ProfileRow) :
    (getCurrentSession sessO q).success = (getCurrentSession sessO q).data.isSome := by
  unfold getCurrentSession
  cases sessO with
  | thrown m => rfl
  | err n m => rfl
  | ok os =>
      cases os with
      | none => rfl
      | some ss =>
          dsimp only
          cases hg : getUserProfile (q ss.user.id) with
          | mk gs gd ge gc => cases gs <;> cases gd <;> rfl

theorem refreshSession_success_eq (refO sessO : SupaCall (Option SupaSession))
    (q : String → SupaCall ProfileRow) :
    (refreshSession refO sessO q).success = (refreshSession refO sessO q).data.isSome := by
  unfold refreshSession
  cases refO with
  | thrown m => rfl
  | err n m => rfl
  | ok os =>
      cases os with
      | none => rfl
      | some ss => exact getCurrentSession_success_eq sessO q

theorem getCurrentUser_success_eq (userO : SupaCall (Option SupaUser))
    (q : String → SupaCall ProfileRow) :
    (getCurrentUser userO q).success = (getCurrentUser userO q).data.isSome := by
  unfold getCurrentUser
  cases userO with
  | thrown m => rfl
  | err n m => rfl
  | ok ou =>
      cases ou with
      | none => rfl
      | some u => exact getUserProfile_success_eq (q u.id)

theorem updateProfile_success_eq (userO : SupaCall (Option SupaUser))
    (q : String → SupaCall ProfileRow) (updO : SupaCall Unit) :
    (updateProfile userO q updO).success = (updateProfile userO q updO).data.isSome := by
  unfold updateProfile
  cases hc : getCurrentUser userO q with
  | mk cs cd ce cc =>
      cases cs <;> cases cd <;> try rfl
      dsimp only
      cases updO with
      | thrown m => rfl
      | err n m => rfl
      | ok _ => exact getUserProfile_success_eq _

end SupabaseAuthService

/-- Claim C1. The specification states that by the time signOut completes,
the Coordinator user and session are null and loading is false, on every
remote outcome. Evaluating the Coordinator signOut at the failing input (an
authenticated state with a remote sign-out call that resolves with an error
object) shows the user kept and loading left true; a thrown call resets
loading but also keeps the user. The code contradicts the unconditional
clearing the specification describes. -/
theorem c1_signOut_failure_keeps_user_eval :
    (AuthContext.signOut sampleCoordAuthed
      (.err "AuthRetryableFetchError" "Network request failed")).user
      = some sampleSupaUser ∧
    (AuthContext.signOut sampleCoordAuthed
      (.err "AuthRetryableFetchError" "Network request failed")).loading = true ∧
    (AuthContext.signOut sampleCoordAuthed
      (.thrown "Network request failed")).user = some sampleSupaUser :=
  ⟨rfl, rfl, rfl⟩

/-- Claim C2, counterexample. The claim states that loading is false when
every action resolves, for every outcome; a signOut whose remote call
resolves with an error object leaves loading true. -/
theorem c2_counterexample_signOut_err_loading_true :
    (AuthContext.signOut ⟨some ⟨"u2", "c@d.com"⟩, none, false, true⟩
      (.err "AuthApiError" "fetch failed")).loading = true := rfl

/-- Claim C2, amended. Loading at promise resolution, per action and
outcome: signUp resets loading to false on every path; updateProfile leaves
loading unchanged on every path; signIn resets it on error and thrown
outcomes but leaves it true on success (it is cleared only later by
handleAuthStateChange, which always sets it false); signOut leaves it true
on both resolved outcomes and resets it only when the call throws. -/
theorem c2_loading_reset_per_action (s : AuthContext.CoordState)
    (c : AuthContext.CtxRegisterCredentials) (o : SupaCall (Option SupaUser))
    (ins : AuthContext.CtxInsertRow → SupaCall Unit) (u : SupaCall Unit)
    (po : SupaCall AuthContext.CtxUserProfile) (n m : String)
    (sess : Option SupaSession) :
    (AuthContext.signUp s c o ins).1.loading = false ∧
    (AuthContext.updateProfile s u po).1.loading = s.loading ∧
    (AuthContext.signIn s (.err n m)).1.loading = false ∧
    (AuthContext.signIn s (.thrown m)).1.loading = false ∧
    (AuthContext.signIn s (.ok ())).1.loading = true ∧
    (AuthContext.signOut s (.ok ())).loading = true ∧
    (AuthContext.signOut s (.err n m)).loading = true ∧
    (AuthContext.signOut s (.thrown m)).loading = false ∧
    (AuthContext.handleAuthStateChange sess po).loading = false := by
  obtain ⟨su, sp, sl, sini⟩ := s
  refine ⟨?_, ?_, rfl, rfl, rfl, rfl, rfl, rfl, ?_⟩
  · cases o with
    | thrown m2 => rfl
    | err n2 m2 => rfl
    | ok ou =>
        cases ou with
        | none => rfl
        | some u2 =>
            dsimp only [AuthContext.signUp]
            cases ins (AuthContext.createUserProfileRow u2 c) <;> rfl
  · cases su with
    | none => rfl
    | some u2 => cases u <;> rfl
  · cases sess <;> rfl

/-- Claim C3, counterexample. logout is an AuthResult of void: a successful
remote sign-out yields success true with no data payload, refuting that
success true implies a present payload for every operation. -/
theorem c3_counterexample_logout_success_without_payload :
    (SupabaseAuthService.logout (.ok ())).success = true ∧
    (SupabaseAuthService.logout (.ok ())).data = none := ⟨rfl, rfl⟩

/-- Claim C3, amended. For the payload-returning operations (login,
register, getCurrentSession, refreshSession, getCurrentUser, updateProfile,
getUserProfile) the success flag equals the presence of the data payload,
so success false implies an absent payload everywhere; the void operations
(logout, changePassword, resetPassword) never carry a payload, even on
success. -/
theorem c3_payload_presence_discipline (c : LoginCredentials)
    (d : RegisterData) (si sc : String → String → SupaCall AuthData)
    (q : String → SupaCall ProfileRow) (dc : Except String (Option String))
    (ins : InsertRow → SupaCall Unit) (sessO refO : SupaCall (Option SupaSession))
    (userO : SupaCall (Option SupaUser)) (updO : SupaCall Unit)
    (o1 o2 o3 : SupaCall Unit) (po : SupaCall ProfileRow) :
    (SupabaseAuthService.login c si q).success
      = (SupabaseAuthService.login c si q).data.isSome ∧
    (SupabaseAuthService.register d sc dc ins q).success
      = (SupabaseAuthService.register d sc dc ins q).data.isSome ∧
    (SupabaseAuthService.getCurrentSession sessO q).success
      = (SupabaseAuthService.getCurrentSession sessO q).data.isSome ∧
    (SupabaseAuthService.refreshSession refO sessO q).success
      = (SupabaseAuthService.refreshSession refO sessO q).data.isSome ∧
    (SupabaseAuthService.getCurrentUser userO q).success
      = (SupabaseAuthService.getCurrentUser userO q).data.isSome ∧
    (SupabaseAuthService.updateProfile userO q updO).success
      = (SupabaseAuthService.updateProfile userO q updO).data.isSome ∧
    (SupabaseAuthService.getUserProfile po).success
      = (SupabaseAuthService.getUserProfile po).data.isSome ∧
    (SupabaseAuthService.logout o1).data = none ∧
    (SupabaseAuthService.changePassword o2).data = none ∧
    (SupabaseAuthService.resetPassword o3).data = none := by
  refine ⟨SupabaseAuthService.login_success_eq c si q,
    SupabaseAuthService.register_success_eq d sc dc ins q,
    SupabaseAuthService.getCurrentSession_success_eq sessO q,
    SupabaseAuthService.refreshSession_success_eq refO sessO q,
    SupabaseAuthService.getCurrentUser_success_eq userO q,
    SupabaseAuthService.updateProfile_success_eq userO q updO,
    SupabaseAuthService.getUserProfile_success_eq po, ?_, ?_, ?_⟩
  · cases o1 <;> rfl
  · cases o2 <;> rfl
  · cases o3 <;> rfl

/-- Claim C4. No operation of the Auth Service and no action of the
Coordinator propagates an exception: each is a total function of its call
outcomes, and a thrown backend call is converted to a result value of the
form success false with a present, non-empty error message (the Coordinator
actions return their error shape and a well-defined state). Resolved error
objects are likewise forwarded as error results. -/
theorem c4_faults_become_error_results (m n : String) (c : LoginCredentials)
    (d : RegisterData) (q : String → SupaCall ProfileRow)
    (dc : Except String (Option String)) (ins : InsertRow → SupaCall Unit)
    (s : AuthContext.CoordState) (rc : AuthContext.CtxRegisterCredentials)
    (insC : AuthContext.CtxInsertRow → SupaCall Unit)
    (po : SupaCall AuthContext.CtxUserProfile) :
    SupabaseAuthService.login c (fun _ _ => .thrown m) q
      = ⟨false, none, some (orDefault m "Login failed"), none⟩ ∧
    SupabaseAuthService.register d (fun _ _ => .thrown m) dc ins q
      = ⟨false, none, some (orDefault m "Registration failed"), none⟩ ∧
    SupabaseAuthService.logout (.thrown m)
      = ⟨false, none, some (orDefault m "Logout failed"), none⟩ ∧
    SupabaseAuthService.getCurrentSession (.thrown m) q
      = ⟨false, none, some (orDefault m "Failed to get session"), none⟩ ∧
    SupabaseAuthService.refreshSession (.thrown m) (.ok none) q
      = ⟨false, none, some (orDefault m "Session refresh failed"), none⟩ ∧
    SupabaseAuthService.changePassword (.thrown m)
      = ⟨false, none, some (orDefault m "Password change failed"), none⟩ ∧
    SupabaseAuthService.resetPassword (.thrown m)
      = ⟨false, none, some (orDefault m "Password reset failed"), none⟩ ∧
    SupabaseAuthService.getCurrentUser (.thrown m) q
      = ⟨false, none, some (orDefault m "Failed to get current user"), none⟩ ∧
    SupabaseAuthService.login c (fun _ _ => .err n m) q
      = ⟨false, none, some m, some n⟩ ∧
    SupabaseAuthService.logout (.err n m) = ⟨false, none, some m, none⟩ ∧
    orDefault m "Login failed" ≠ "" ∧
    orDefault m "Registration failed" ≠ "" ∧
    (AuthContext.signIn s (.thrown m)).2
      = some ⟨"An unexpected error occurred during sign in", none⟩ ∧
    (AuthContext.signUp s rc (.thrown m) insC).2
      = some ⟨"An unexpected error occurred during registration", none⟩ ∧
    ((AuthContext.updateProfile s (.thrown m) po).2).isSome = true ∧
    AuthContext.signOut s (.thrown m) = { s with loading := false } ∧
    SupabaseAuthService.onAuthChangePayload none q = none := by
  refine ⟨rfl, rfl, rfl, rfl, rfl, rfl, rfl, rfl, rfl, rfl, ?_, ?_, rfl, rfl,
    ?_, rfl, rfl⟩
  · unfold orDefault; split <;> simp_all
  · unfold orDefault; split <;> simp_all
  · obtain ⟨su, sp, sl, sini⟩ := s
    cases su <;> rfl

/-- Claim C5. When identity creation succeeds (signUp yields a user,
whatever the session) and the user_profiles insert fails, register returns
success false with the error message prefixed by Profile creation failed
and the insert reason; and the Coordinator signUp on the corresponding
path never writes its user or profile fields, so no session is adopted. -/
theorem c5_register_profile_failure_reported (d : RegisterData) (u : SupaUser)
    (so : Option SupaSession) (v : Option String) (n m : String)
    (q : String → SupaCall ProfileRow) (s : AuthContext.CoordState)
    (rc : AuthContext.CtxRegisterCredentials) (u2 : SupaUser) :
    SupabaseAuthService.register d (fun _ _ => .ok ⟨some u, so⟩) (.ok v)
      (fun _ => .err n m) q
      = ⟨false, none, some ("Profile creation failed: " ++ m), none⟩ ∧
    (AuthContext.signUp s rc (.ok (some u2)) (fun _ => .err n m)).1.user = s.user ∧
    (AuthContext.signUp s rc (.ok (some u2)) (fun _ => .err n m)).1.profile
      = s.profile := by
  refine ⟨?_, rfl, rfl⟩
  rcases d with ⟨de, dp, df, dl, dcid, dr⟩
  cases dcid with
  | none => rfl
  | some cstr =>
      by_cases hc : cstr = "" <;>
        simp [SupabaseAuthService.register, SupabaseAuthService.resolveContractorId,
          SupabaseAuthService.getDefaultContractorId, hc, Except.map]

/-- Claim C6, counterexample. The service layer performs no emptiness
validation: login with an empty email is forwarded to the backend, and a
backend that resolves the call successfully makes login return success
true. The claimed failure is therefore not enforced by the service layer. -/
theorem c6_counterexample_service_passes_empty_email :
    (SupabaseAuthService.login ⟨"", "pw"⟩
      (fun _ _ => .ok ⟨some sampleSupaUser, some sampleSession⟩)
      (fun _ => .ok sampleRow)).success = true := rfl

/-- Claim C6, amended. Empty-input rejection lives in the UI layer, not
the service layer: validateForm of LoginScreen rejects an empty email or
password with a non-empty message and handleLogin then never invokes the
service, leaving session state unchanged; the service merely mirrors the
backend response, returning success false with the backend message when the
backend rejects. -/
theorem c6_empty_inputs_rejected_in_ui (e p n m : String)
    (q : String → SupaCall ProfileRow) (d : RegisterData)
    (dc : Except String (Option String)) (ins : InsertRow → SupaCall Unit) :
    (trimStr e = "" →
      LoginScreenUI.loginEmailError e = some "Email is required" ∧
      LoginScreenUI.validateForm e p = false ∧
      LoginScreenUI.handleLoginCall e p = none) ∧
    (p = "" →
      LoginScreenUI.loginPasswordError p = some "Password is required" ∧
      LoginScreenUI.validateForm e p = false ∧
      LoginScreenUI.handleLoginCall e p = none) ∧
    (m ≠ "" →
      (SupabaseAuthService.login ⟨e, p⟩ (fun _ _ => .err n m) q).success = false ∧
      (SupabaseAuthService.login ⟨e, p⟩ (fun _ _ => .err n m) q).error = some m) ∧
    (m ≠ "" →
      (SupabaseAuthService.register d (fun _ _ => .err n m) dc ins q).success = false ∧
      (SupabaseAuthService.register d (fun _ _ => .err n m) dc ins q).error = some m) := by
  refine ⟨fun h => ?_, fun h => ?_, fun _ => ⟨rfl, rfl⟩, fun _ => ⟨rfl, rfl⟩⟩
  · have he : LoginScreenUI.loginEmailError e = some "Email is required" := by
      unfold LoginScreenUI.loginEmailError; rw [if_pos h]
    have hv : LoginScreenUI.validateForm e p = false := by
      simp [LoginScreenUI.validateForm, he]
    have hh : LoginScreenUI.handleLoginCall e p = none := by
      simp [LoginScreenUI.handleLoginCall, hv]
    exact ⟨he, hv, hh⟩
  · have hp : LoginScreenUI.loginPasswordError p = some "Password is required" := by
      unfold LoginScreenUI.loginPasswordError; rw [if_pos h]
    have hv : LoginScreenUI.validateForm e p = false := by
      simp [LoginScreenUI.validateForm, hp]
    have hh : LoginScreenUI.handleLoginCall e p = none := by
      simp [LoginScreenUI.handleLoginCall, hv]
    exact ⟨hp, hv, hh⟩

/-- Claim C6, witness for the amended theorem at concrete inputs: a
whitespace email and an empty password are rejected by the form and the
service never runs; a backend rejection with a non-empty message is
mirrored as a failure by login. -/
theorem c6_empty_inputs_rejected_in_ui_witness :
    LoginScreenUI.validateForm "  " "" = false ∧
    LoginScreenUI.handleLoginCall "  " "" = none ∧
    (SupabaseAuthService.login ⟨"  ", ""⟩
      (fun _ _ => .err "AuthApiError" "missing email or phone")
      (fun _ => .ok sampleRow)).success = false := by
  have h := c6_empty_inputs_rejected_in_ui "  " "" "AuthApiError"
    "missing email or phone" (fun _ => .ok sampleRow)
    ⟨"a@b.com", "Abcdef12", "A", "B", none, none⟩ (.ok none) (fun _ => .ok ())
  exact ⟨(h.1 (by decide)).2.1, (h.1 (by decide)).2.2, (h.2.2.1 (by decide)).1⟩

/-- Claim C9. When the sign-up step yields a user but a null session (email
confirmation pending) and the remaining steps succeed, register still
returns success true with a present session whose accessToken is the empty
string (and no refresh token or expiry); and for every outcome register
never returns success with an absent session, since its success flag equals
the presence of its payload. -/
theorem c9_register_without_session_empty_access_token (d : RegisterData)
    (u : SupaUser) (v : Option String) (row : ProfileRow)
    (sc : String → String → SupaCall AuthData) (dc : Except String (Option String))
    (ins : InsertRow → SupaCall Unit) (q : String → SupaCall ProfileRow) :
    SupabaseAuthService.register d (fun _ _ => .ok ⟨some u, none⟩) (.ok v)
      (fun _ => .ok ()) (fun _ => .ok row)
      = ⟨true, some ⟨SupabaseAuthService.userOfRow row, "", none, none⟩, none, none⟩ ∧
    (SupabaseAuthService.register d sc dc ins q).success
      = ((SupabaseAuthService.register d sc dc ins q).data).isSome := by
  refine ⟨?_, SupabaseAuthService.register_success_eq d sc dc ins q⟩
  rcases d with ⟨de, dp, df, dl, dcid, dr⟩
  cases dcid with
  | none => rfl
  | some cstr =>
      by_cases hc : cstr = "" <;>
        simp [SupabaseAuthService.register, SupabaseAuthService.resolveContractorId,
          SupabaseAuthService.getDefaultContractorId, hc, Except.map,
          SupabaseAuthService.getUserProfile]

/-- Claim C10. The Coordinator signIn and signUp forward the submitted
email trimmed and lowercased, so two submissions whose emails agree after
trimming surrounding whitespace and lowercasing produce the same email at
the backend. -/
theorem c10_coordinator_normalizes_email
    (c1 c2 : AuthContext.CtxLoginCredentials)
    (r1 r2 : AuthContext.CtxRegisterCredentials)
    (h : lowerStr (trimStr c1.email) = lowerStr (trimStr c2.email))
    (hr : lowerStr (trimStr r1.email) = lowerStr (trimStr r2.email)) :
    (AuthContext.signInRequest c1).1 = (AuthContext.signInRequest c2).1 ∧
    (AuthContext.signUpRequest r1).1 = (AuthContext.signUpRequest r2).1 ∧
    (AuthContext.signInRequest c1).1 = lowerStr (trimStr c1.email) ∧
    (AuthContext.signUpRequest r1).1 = lowerStr (trimStr r1.email) :=
  ⟨h, hr, rfl, rfl⟩

/-- Claim C10, witness at concrete inputs differing only in case and
surrounding whitespace. -/
theorem c10_coordinator_normalizes_email_witness :
    (AuthContext.signInRequest ⟨" Foo@Bar.COM", "p"⟩).1
      = (AuthContext.signInRequest ⟨"foo@bar.com  ", "p"⟩).1 ∧
    (AuthContext.signUpRequest ⟨"A@B.com ", "p", "n", none, none⟩).1
      = (AuthContext.signUpRequest ⟨" a@b.COM", "p", "n", none, none⟩).1 := by
  have h := c10_coordinator_normalizes_email ⟨" Foo@Bar.COM", "p"⟩
    ⟨"foo@bar.com  ", "p"⟩ ⟨"A@B.com ", "p", "n", none, none⟩
    ⟨" a@b.COM", "p", "n", none, none⟩ (by decide) (by decide)
  exact ⟨h.1, h.2.1⟩

/-- Claim C7, counterexample. A submitted email with surrounding whitespace
still logs in successfully (the service trims it before the backend call),
but the email of the session returned by getCurrentSession then differs
from the submitted email even case-insensitively, refuting equality up to
letter case alone. -/
theorem c7_counterexample_untrimmed_email :
    (BackendModel.loginB sampleBackend ⟨" a@b.com", "pw"⟩).1.success = true ∧
    ((BackendModel.currentSessionB
        (BackendModel.loginB sampleBackend ⟨" a@b.com", "pw"⟩).2).data.map
      fun ss => lowerStr ss.user.email) = some "a@b.com" ∧
    lowerStr " a@b.com" ≠ "a@b.com" := by
  refine ⟨rfl, rfl, by decide⟩

/-- Claim C7, amended. For every backend state whose profile rows agree
with their account emails up to case, a successful login with submitted
email e makes getCurrentSession return a session whose user email equals
the trimmed e up to letter case, and handing the resulting session to the
Coordinator handleAuthStateChange yields a non-null user. -/
theorem c7_login_then_session_email_matches_trimmed
    (b : BackendModel.Backend) (c : LoginCredentials)
    (a : BackendModel.Account) (r : ProfileRow)
    (hfa : BackendModel.findAccount b (trimStr c.email) c.password = some a)
    (hcons : ∀ rr ∈ b.profiles, ∀ aa ∈ b.accounts, rr.id = aa.id →
      lowerStr rr.email = lowerStr aa.email)
    (hpr : b.profiles.find? (fun rr => rr.id == a.id) = some r) :
    (BackendModel.loginB b c).1.success = true ∧
    ((BackendModel.currentSessionB (BackendModel.loginB b c).2).data.map
      fun ss => lowerStr ss.user.email) = some (lowerStr (trimStr c.email)) ∧
    ∀ po, (AuthContext.handleAuthStateChange
      (BackendModel.loginB b c).2.active po).user.isSome = true := by
  have hmemr : r ∈ b.profiles := List.mem_of_find?_eq_some hpr
  have hmema : a ∈ b.accounts := by
    unfold BackendModel.findAccount at hfa
    exact List.mem_of_find?_eq_some hfa
  have hrid : r.id = a.id := by
    have h1 := List.find?_some hpr
    simpa using h1
  have hane : lowerStr a.email = lowerStr (trimStr c.email) := by
    have h1 := by
      unfold BackendModel.findAccount at hfa
      exact List.find?_some hfa
    simp [Bool.and_eq_true] at h1
    exact h1.1
  have hre : lowerStr r.email = lowerStr (trimStr c.email) :=
    (hcons r hmemr a hmema hrid).trans hane
  have hsi : BackendModel.signInOutcome b (trimStr c.email) c.password
      = .ok ⟨some ⟨a.id, a.email⟩, some (BackendModel.mkSession a)⟩ := by
    unfold BackendModel.signInOutcome
    rw [hfa]
  have hpq : BackendModel.profileQuery b a.id = .ok r := by
    unfold BackendModel.profileQuery
    rw [hpr]
  have hafter : (BackendModel.loginB b c).2
      = { b with active := some (BackendModel.mkSession a) } := by
    unfold BackendModel.loginB BackendModel.afterSignIn
    rw [hfa]
  have hlg : (BackendModel.loginB b c).1
      = ⟨true, some ⟨SupabaseAuthService.userOfRow r,
          (BackendModel.mkSession a).access_token,
          some (BackendModel.mkSession a).refresh_token,
          (BackendModel.mkSession a).expires_at.map (· * 1000)⟩, none, none⟩ := by
    unfold BackendModel.loginB
    dsimp only
    unfold SupabaseAuthService.login
    rw [hsi]
    dsimp only
    rw [hpq]
    rfl
  have hcur : (BackendModel.currentSessionB (BackendModel.loginB b c).2).data
      = some ⟨SupabaseAuthService.userOfRow r,
          (BackendModel.mkSession a).access_token,
          some (BackendModel.mkSession a).refresh_token,
          (BackendModel.mkSession a).expires_at.map (· * 1000)⟩ := by
    rw [hafter]
    unfold BackendModel.currentSessionB
    unfold SupabaseAuthService.getCurrentSession
    dsimp only
    have hpq2 : BackendModel.profileQuery
        { b with active := some (BackendModel.mkSession a) }
        (BackendModel.mkSession a).user.id = .ok r := by
      unfold BackendModel.profileQuery BackendModel.mkSession
      dsimp only
      rw [hpr]
    rw [hpq2]
    rfl
  refine ⟨by rw [hlg], ?_, ?_⟩
  · rw [hcur]
    dsimp only [Option.map, SupabaseAuthService.userOfRow]
    rw [hre]
  · intro po
    rw [hafter]
    rfl

/-- Claim C7, witness for the amended theorem: a concrete backend with one
account and a matching profile row, and a submitted email differing from
the stored one only by case. -/
theorem c7_login_then_session_email_matches_trimmed_witness :
    (BackendModel.loginB sampleBackend ⟨"A@B.COM", "pw"⟩).1.success = true ∧
    ((BackendModel.currentSessionB
        (BackendModel.loginB sampleBackend ⟨"A@B.COM", "pw"⟩).2).data.map
      fun ss => lowerStr ss.user.email)
      = some (lowerStr (trimStr "A@B.COM")) := by
  have h := c7_login_then_session_email_matches_trimmed sampleBackend
    ⟨"A@B.COM", "pw"⟩ ⟨"u1", "a@b.com", "pw"⟩ sampleRow
    (by decide) (by decide) (by decide)
  exact ⟨h.1, h.2.1⟩

/-- Claim C8. Refreshing while authenticated with a valid session does not
change user.id: for every backend state with an active session whose user
has a profile row, the session returned by refreshSession carries the same
user.id as the active session, which is also what getCurrentSession
reported before the refresh. -/
theorem c8_refresh_preserves_user_id (b : BackendModel.Backend)
    (s : SupaSession) (r : ProfileRow)
    (hact : b.active = some s)
    (hpr : b.profiles.find? (fun rr => rr.id == s.user.id) = some r) :
    ((BackendModel.refreshB b).data.map fun ss => ss.user.id) = some s.user.id ∧
    ((BackendModel.currentSessionB b).data.map fun ss => ss.user.id)
      = some s.user.id ∧
    (BackendModel.refreshB b).success = true := by
  have hrid : r.id = s.user.id := by
    have h1 := List.find?_some hpr
    simpa using h1
  have hpq : BackendModel.profileQuery b s.user.id = .ok r := by
    unfold BackendModel.profileQuery
    rw [hpr]
  have hro : BackendModel.refreshOutcome b = .ok (some (BackendModel.rotate s)) := by
    unfold BackendModel.refreshOutcome
    rw [hact]
  have hpq2 : BackendModel.profileQuery (BackendModel.afterRefresh b)
      (BackendModel.rotate s).user.id = .ok r := by
    unfold BackendModel.profileQuery BackendModel.afterRefresh BackendModel.rotate
    dsimp only
    rw [hpr]
  have href : BackendModel.refreshB b
      = ⟨true, some ⟨SupabaseAuthService.userOfRow r,
          (BackendModel.rotate s).access_token,
          some (BackendModel.rotate s).refresh_token,
          (BackendModel.rotate s).expires_at.map (· * 1000)⟩, none, none⟩ := by
    unfold BackendModel.refreshB
    unfold SupabaseAuthService.refreshSession
    rw [hro]
    dsimp only
    unfold SupabaseAuthService.getCurrentSession
    have hact2 : (BackendModel.afterRefresh b).active
        = some (BackendModel.rotate s) := by
      unfold BackendModel.afterRefresh
      rw [hact]
      rfl
    rw [hact2]
    dsimp only
    rw [hpq2]
    rfl
  have hcur : BackendModel.currentSessionB b
      = ⟨true, some ⟨SupabaseAuthService.userOfRow r, s.access_token,
          some s.refresh_token, s.expires_at.map (· * 1000)⟩, none, none⟩ := by
    unfold BackendModel.currentSessionB
    unfold SupabaseAuthService.getCurrentSession
    rw [hact]
    dsimp only
    rw [hpq]
    rfl
  refine ⟨?_, ?_, by rw [href]⟩
  · rw [href]
    dsimp only [Option.map, SupabaseAuthService.userOfRow]
    rw [hrid]
  · rw [hcur]
    dsimp only [Option.map, SupabaseAuthService.userOfRow]
    rw [hrid]

/-- Claim C8, witness: the concrete backend with an active session for user
u1 and the matching profile row. -/
theorem c8_refresh_preserves_user_id_witness :
    ((BackendModel.refreshB sampleBackendActive).data.map fun ss => ss.user.id)
      = some "u1" ∧
    (BackendModel.refreshB sampleBackendActive).success = true := by
  have h := c8_refresh_preserves_user_id sampleBackendActive sampleSession
    sampleRow rfl (by decide)
  exact ⟨h.1, h.2.2⟩

/-- Claim C2, witness for the amended theorem at concrete inputs. -/
theorem c2_loading_reset_per_action_witness :
    (AuthContext.signUp sampleCoordAuthed ⟨"a@b.com", "pw", "A", none, none⟩
      (.ok none) (fun _ => .ok ())).1.loading = false :=
  (c2_loading_reset_per_action sampleCoordAuthed ⟨"a@b.com", "pw", "A", none, none⟩
    (.ok none) (fun _ => .ok ()) (.ok ())
    (.ok ⟨"u1", "a@b.com", none, none, none, "t0", "t0"⟩) "n" "m" none).1

/-- Claim C3, witness for the amended theorem at concrete inputs. -/
theorem c3_payload_presence_discipline_witness :
    (SupabaseAuthService.login ⟨"a@b.com", "pw"⟩
        (fun _ _ => .ok ⟨some sampleSupaUser, some sampleSession⟩)
        (fun _ => .ok sampleRow)).success
      = (SupabaseAuthService.login ⟨"a@b.com", "pw"⟩
        (fun _ _ => .ok ⟨some sampleSupaUser, some sampleSession⟩)
        (fun _ => .ok sampleRow)).data.isSome :=
  (c3_payload_presence_discipline ⟨"a@b.com", "pw"⟩
    ⟨"a@b.com", "pw", "A", "B", none, none⟩
    (fun _ _ => .ok ⟨some sampleSupaUser, some sampleSession⟩)
    (fun _ _ => .ok ⟨some sampleSupaUser, some sampleSession⟩)
    (fun _ => .ok sampleRow) (.ok none) (fun _ => .ok ())
    (.ok none) (.ok none) (.ok none) (.ok ()) (.ok ()) (.ok ()) (.ok ())
    (.ok sampleRow)).1

/-- Claim C4, witness at concrete inputs. -/
theorem c4_faults_become_error_results_witness :
    SupabaseAuthService.login ⟨"a@b.com", "pw"⟩
        (fun _ _ => .thrown "Network request failed") (fun _ => .ok sampleRow)
      = ⟨false, none,
          some (orDefault "Network request failed" "Login failed"), none⟩ :=
  (c4_faults_become_error_results "Network request failed" "AuthApiError"
    ⟨"a@b.com", "pw"⟩ ⟨"a@b.com", "pw", "A", "B", none, none⟩
    (fun _ => .ok sampleRow) (.ok none) (fun _ => .ok ())
    sampleCoordAuthed ⟨"a@b.com", "pw", "A", none, none⟩ (fun _ => .ok ())
    (.ok ⟨"u1", "a@b.com", none, none, none, "t0", "t0"⟩)).1

/-- Claim C5, witness at concrete inputs. -/
theorem c5_register_profile_failure_reported_witness :
    SupabaseAuthService.register ⟨"a@b.com", "Abcdef12", "A", "B", none, none⟩
        (fun _ _ => .ok ⟨some sampleSupaUser, none⟩) (.ok (some "c1"))
        (fun _ => .err "PostgrestError"
          "duplicate key value violates unique constraint")
        (fun _ => .ok sampleRow)
      = ⟨false, none, some ("Profile creation failed: "
          ++ "duplicate key value violates unique constraint"), none⟩ :=
  (c5_register_profile_failure_reported
    ⟨"a@b.com", "Abcdef12", "A", "B", none, none⟩ sampleSupaUser none
    (some "c1") "PostgrestError"
    "duplicate key value violates unique constraint" (fun _ => .ok sampleRow)
    sampleCoordAuthed ⟨"a@b.com", "pw", "A", none, none⟩ sampleSupaUser).1

/-- Claim C9, witness at concrete inputs. -/
theorem c9_register_without_session_empty_access_token_witness :
    SupabaseAuthService.register ⟨"a@b.com", "Abcdef12", "A", "B", none, none⟩
        (fun _ _ => .ok ⟨some sampleSupaUser, none⟩) (.ok (some "c1"))
        (fun _ => .ok ()) (fun _ => .ok sampleRow)
      = ⟨true, some ⟨SupabaseAuthService.userOfRow sampleRow, "", none, none⟩,
          none, none⟩ :=
  (c9_register_without_session_empty_access_token
    ⟨"a@b.com", "Abcdef12", "A", "B", none, none⟩ sampleSupaUser (some "c1")
    sampleRow (fun _ _ => .ok ⟨some sampleSupaUser, none⟩) (.ok (some "c1"))
    (fun _ => .ok ()) (fun _ => .ok sampleRow)).1
